import Mathlib

set_option maxRecDepth 100000

/-!
Verification of the repository "machine-learning": a single Jupyter
notebook, "Tour de SciKit-Learn.ipynb", whose code cells call into
scikit-learn, numpy, pandas and matplotlib.  The notebook is embedded
below as data: a Python expression / statement AST, one Lean term per
code cell, translated statement by statement from the source.  All
claims are then settled by decidable checks over this data.
-/

namespace Tour

/-- Literal floating point constant of the source, kept exact:
`mant * 10 ^ (- exp)`.  So 0.2 is `⟨2, 1⟩`, .05 is `⟨5, 2⟩`. -/
structure PyFloat where
  mant : Int
  exp : Nat
deriving DecidableEq, Repr

/-- Rational denotation of a literal float of the source. -/
def PyFloat.toRat (f : PyFloat) : ℚ := (f.mant : ℚ) / (10 : ℚ) ^ f.exp

/-- Python expressions, as they occur in the notebook.  Constructors such
as `lambda` and `await` are part of the language and are included so that
their absence from the notebook is a checkable fact, not an artifact of
the embedding. -/
inductive Expr where
  | name : String → Expr
  | attr : Expr → String → Expr
  | call : Expr → List Expr → Expr
  | kw : String → Expr → Expr
  | intLit : Int → Expr
  | floatLit : PyFloat → Expr
  | strLit : String → Expr
  | noneLit : Expr
  | tupleLit : List Expr → Expr
  | listLit : List Expr → Expr
  | dictLit : List Expr → Expr
  | kvpair : Expr → Expr → Expr
  | subscript : Expr → Expr → Expr
  | sliceTo : Expr → Expr
  | colon : Expr
  | binop : String → Expr → Expr → Expr
  | compare : String → Expr → Expr → Expr
  | listComp : Expr → String → Expr → Expr
  | lambda : List String → Expr → Expr
  | await : Expr → Expr

/-- Python statements, as they occur in the notebook.  `tryExcept`,
`funcDef`, `classDef`, `withStmt`, `raiseStmt` and `asyncFuncDef` are
included so that their absence from the notebook is a checkable fact. -/
inductive Stmt where
  | magic : String → Stmt
  | importMod : String → String → Stmt
  | fromImport : String → List (String × String) → Stmt
  | assign : List String → Expr → Stmt
  | attrAssign : Expr → String → Expr → Stmt
  | subscriptAssign : Expr → Expr → Expr → Stmt
  | exprStmt : Expr → Stmt
  | forIn : List String → Expr → List Stmt → Stmt
  | ifElse : Expr → List Stmt → List Stmt → Stmt
  | tryExcept : List Stmt → List Stmt → Stmt
  | funcDef : String → List String → List Stmt → Stmt
  | classDef : String → List Stmt → Stmt
  | withStmt : Expr → List Stmt → Stmt
  | raiseStmt : Expr → Stmt
  | asyncFuncDef : String → List String → List Stmt → Stmt

mutual

/-- The expression itself together with every nested subexpression. -/
def Expr.subterms : Expr → List Expr
  | .name s => [.name s]
  | .attr b f => .attr b f :: b.subterms
  | .call f args => .call f args :: (f.subterms ++ Expr.subtermsList args)
  | .kw k v => .kw k v :: v.subterms
  | .intLit k => [.intLit k]
  | .floatLit f => [.floatLit f]
  | .strLit s => [.strLit s]
  | .noneLit => [.noneLit]
  | .tupleLit es => .tupleLit es :: Expr.subtermsList es
  | .listLit es => .listLit es :: Expr.subtermsList es
  | .dictLit es => .dictLit es :: Expr.subtermsList es
  | .kvpair a b => .kvpair a b :: (a.subterms ++ b.subterms)
  | .subscript b i => .subscript b i :: (b.subterms ++ i.subterms)
  | .sliceTo e => .sliceTo e :: e.subterms
  | .colon => [.colon]
  | .binop o a b => .binop o a b :: (a.subterms ++ b.subterms)
  | .compare o a b => .compare o a b :: (a.subterms ++ b.subterms)
  | .listComp b v it => .listComp b v it :: (b.subterms ++ it.subterms)
  | .lambda ps b => .lambda ps b :: b.subterms
  | .await e => .await e :: e.subterms

/-- Subterms of every expression in a list. -/
def Expr.subtermsList : List Expr → List Expr
  | [] => []
  | e :: es => e.subterms ++ Expr.subtermsList es

end

mutual

/-- The statement itself together with every statement nested inside it. -/
def Stmt.allStmts : Stmt → List Stmt
  | .forIn vs it body => .forIn vs it body :: Stmt.allStmtsList body
  | .ifElse c t e => .ifElse c t e :: (Stmt.allStmtsList t ++ Stmt.allStmtsList e)
  | .tryExcept b h => .tryExcept b h :: (Stmt.allStmtsList b ++ Stmt.allStmtsList h)
  | .funcDef nm ps body => .funcDef nm ps body :: Stmt.allStmtsList body
  | .classDef nm body => .classDef nm body :: Stmt.allStmtsList body
  | .withStmt e body => .withStmt e body :: Stmt.allStmtsList body
  | .asyncFuncDef nm ps body => .asyncFuncDef nm ps body :: Stmt.allStmtsList body
  | s => [s]

/-- All statements nested anywhere in a list of statements. -/
def Stmt.allStmtsList : List Stmt → List Stmt
  | [] => []
  | s :: ss => s.allStmts ++ Stmt.allStmtsList ss

end

/-- The expressions appearing directly in a statement (not those of
nested statements). -/
def Stmt.topExprs : Stmt → List Expr
  | .assign _ rhs => [rhs]
  | .attrAssign obj _ rhs => [obj, rhs]
  | .subscriptAssign obj k rhs => [obj, k, rhs]
  | .exprStmt e => [e]
  | .forIn _ it _ => [it]
  | .ifElse c _ _ => [c]
  | .withStmt e _ => [e]
  | .raiseStmt e => [e]
  | _ => []

/-- Every expression (with all its subterms) appearing anywhere in a list
of statements. -/
def stmtsExprs (ss : List Stmt) : List Expr :=
  Expr.subtermsList ((Stmt.allStmtsList ss).flatMap Stmt.topExprs)

/-- A code cell of the notebook: its position in the notebook (markdown
cells counted, so ids match the source) and its statements. -/
structure Cell where
  id : Nat
  code : List Stmt

/-! Short builders used only to keep the cell terms readable. -/

/-- Variable reference. -/
def V (s : String) : Expr := .name s

/-- String literal. -/
def S (s : String) : Expr := .strLit s

/-- Integer literal. -/
def I (k : Int) : Expr := .intLit k

/-- Float literal, `m * 10 ^ (- e)`. -/
def F (m : Int) (e : Nat) : Expr := .floatLit ⟨m, e⟩

/-- Attribute access `e.f`. -/
def At (e : Expr) (f : String) : Expr := .attr e f

/-- Call `f(args)`. -/
def Cl (f : Expr) (args : List Expr) : Expr := .call f args

/-- Keyword argument `k=v`. -/
def Kw (k : String) (v : Expr) : Expr := .kw k v

/-- Method call `obj.m(args)` on a variable. -/
def meth (obj m : String) (args : List Expr) : Expr := Cl (At (V obj) m) args

/-- Dotted pair `a.b` on a variable. -/
def dot (a b : String) : Expr := At (V a) b

/-- Statement `print(args)`. -/
def pr (args : List Expr) : Stmt := .exprStmt (Cl (V "print") args)

/-- Single-target assignment `v = e`. -/
def asg (v : String) (e : Expr) : Stmt := .assign [v] e

/-! The notebook, cell by cell.  Cell numbers are the positions in the
source file, counting the markdown cells, so cell 10 is the cell headed
by the LinearRegression import, cell 46 the warnings cell, etc. -/

/-- Cell 2: matplotlib magic, all imports of the setup, and the five
bundled dataset loads with a shape print after each one. -/
def cell2 : Cell := ⟨2, [
  .magic "matplotlib inline",
  .importMod "time" "time",
  .importMod "numpy" "np",
  .importMod "matplotlib.pyplot" "plt",
  .fromImport "sklearn.metrics" [("mean_squared_error", "mse")],
  .fromImport "sklearn.metrics" [("r2_score", "r2_score")],
  .fromImport "sklearn.metrics" [("classification_report", "classification_report")],
  .fromImport "sklearn" [("cross_validation", "cv")],
  .fromImport "sklearn.datasets" [("load_boston", "load_boston")],
  .fromImport "sklearn.datasets" [("load_iris", "load_iris")],
  .fromImport "sklearn.datasets" [("load_diabetes", "load_diabetes")],
  .fromImport "sklearn.datasets" [("load_digits", "load_digits")],
  .fromImport "sklearn.datasets" [("load_linnerud", "load_linnerud")],
  asg "boston" (Cl (V "load_boston") []),
  pr [.binop "%" (S "Boston: %i samples %i features") (At (dot "boston" "data") "shape")],
  asg "iris" (Cl (V "load_iris") []),
  pr [.binop "%" (S "Iris: %i samples %i features") (At (dot "iris" "data") "shape")],
  asg "diabetes" (Cl (V "load_diabetes") []),
  pr [.binop "%" (S "Diabetes: %i samples %i features") (At (dot "diabetes" "data") "shape")],
  asg "digits" (Cl (V "load_digits") []),
  pr [.binop "%" (S "Digits: %i samples %i features") (At (dot "digits" "data") "shape")],
  asg "linnerud" (Cl (V "load_linnerud") []),
  pr [.binop "%" (S "Linnerud: %i samples %i features") (At (dot "linnerud" "data") "shape")]
]⟩

/-- Cell 4: pandas scatter matrix of the iris data, colored by target. -/
def cell4 : Cell := ⟨4, [
  .importMod "pandas" "pd",
  .fromImport "pandas.tools.plotting" [("scatter_matrix", "scatter_matrix"), ("radviz", "radviz")],
  asg "df" (Cl (dot "pd" "DataFrame") [dot "iris" "data"]),
  .attrAssign (V "df") "columns" (dot "iris" "feature_names"),
  asg "cmap" (.dictLit [.kvpair (I 0) (S "r"), .kvpair (I 1) (S "b"), .kvpair (I 2) (S "g")]),
  asg "colors" (.listComp (.subscript (V "cmap") (V "t")) "t" (dot "iris" "target")),
  asg "fig" (Cl (V "scatter_matrix") [V "df", Kw "alpha" (F 4 1),
    Kw "figsize" (.tupleLit [I 16, I 10]), Kw "diagonal" (S "kde"), Kw "color" (V "colors")])
]⟩

/-- Cell 5: radviz plot of the iris species. -/
def cell5 : Cell := ⟨5, [
  .exprStmt (Cl (dot "plt" "figure") [Kw "figsize" (.tupleLit [I 12, I 12])]),
  .subscriptAssign (V "df") (S "species")
    (.listComp (.subscript (dot "iris" "target_names") (V "idx")) "idx" (dot "iris" "target")),
  .exprStmt (Cl (V "radviz") [V "df", S "species", Kw "color" (.listLit [S "r", S "g", S "b"])])
]⟩

/-- Cell 6: scatter matrix of the diabetes data. -/
def cell6 : Cell := ⟨6, [
  asg "df" (Cl (dot "pd" "DataFrame") [dot "diabetes" "data"]),
  asg "fig" (Cl (V "scatter_matrix") [V "df", Kw "alpha" (F 2 1),
    Kw "figsize" (.tupleLit [I 16, I 10]), Kw "diagonal" (S "kde")])
]⟩

/-- Cell 7: show the last digits image. -/
def cell7 : Cell := ⟨7, [
  .importMod "random" "random",
  .exprStmt (Cl (dot "plt" "figure") [I 1, Kw "figsize" (.tupleLit [I 3, I 3])]),
  .exprStmt (Cl (dot "plt" "imshow") [.subscript (dot "digits" "images") (I (-1)),
    Kw "cmap" (At (dot "plt" "cm") "gray_r"), Kw "interpolation" (S "nearest")]),
  .exprStmt (Cl (dot "plt" "show") [])
]⟩

/-- The nine regression cells (10, 12, 14, 16, 18, 20, 22, 24, 26) are
textually identical except for the imported estimator class and its
constructor arguments: import the class, fit a fresh model on the full
diabetes data, predict on the same data, and print MSE and R2 against
the diabetes target. -/
def regressionCell (id : Nat) (module cls : String) (ctorArgs : List Expr) : Cell := ⟨id, [
  .fromImport module [(cls, cls)],
  asg "model" (Cl (V cls) ctorArgs),
  .exprStmt (meth "model" "fit" [dot "diabetes" "data", dot "diabetes" "target"]),
  asg "expected" (dot "diabetes" "target"),
  asg "predicted" (meth "model" "predict" [dot "diabetes" "data"]),
  pr [.binop "%" (S "Mean Squared Error: %0.3f") (Cl (V "mse") [V "expected", V "predicted"])],
  pr [.binop "%" (S "Coefficient of Determination: %0.3f")
    (Cl (V "r2_score") [V "expected", V "predicted"])]
]⟩

/-- Cell 10: LinearRegression on diabetes. -/
def cell10 : Cell := regressionCell 10 "sklearn.linear_model" "LinearRegression" []

/-- Cell 12: Perceptron on diabetes. -/
def cell12 : Cell := regressionCell 12 "sklearn.linear_model" "Perceptron" []

/-- Cell 14: KNeighborsRegressor on diabetes. -/
def cell14 : Cell := regressionCell 14 "sklearn.neighbors" "KNeighborsRegressor" []

/-- Cell 16: DecisionTreeRegressor on diabetes. -/
def cell16 : Cell := regressionCell 16 "sklearn.tree" "DecisionTreeRegressor" []

/-- Cell 18: RandomForestRegressor on diabetes. -/
def cell18 : Cell := regressionCell 18 "sklearn.ensemble" "RandomForestRegressor" []

/-- Cell 20: AdaBoostRegressor on diabetes. -/
def cell20 : Cell := regressionCell 20 "sklearn.ensemble" "AdaBoostRegressor" []

/-- Cell 22: SVR on diabetes. -/
def cell22 : Cell := regressionCell 22 "sklearn.svm" "SVR" []

/-- Cell 24: Ridge with alpha=0.1 on diabetes. -/
def cell24 : Cell := regressionCell 24 "sklearn.linear_model" "Ridge" [Kw "alpha" (F 1 1)]

/-- Cell 26: Lasso with alpha=0.1 on diabetes. -/
def cell26 : Cell := regressionCell 26 "sklearn.linear_model" "Lasso" [Kw "alpha" (F 1 1)]

/-- The classification cells 29, 31, 33, 35, 37 and 41 are textually
identical except for the imported estimator class, its constructor
arguments and the dataset: split the dataset with test_size=0.2, fit a
fresh model on the train part, predict on the test part, and print the
classification report of the prediction against the held-out targets. -/
def classificationCell (id : Nat) (module cls : String) (ctorArgs : List Expr)
    (ds : String) : Cell := ⟨id, [
  .fromImport module [(cls, cls)],
  asg "splits" (Cl (dot "cv" "train_test_split")
    [dot ds "data", dot ds "target", Kw "test_size" (F 2 1)]),
  .assign ["X_train", "X_test", "y_train", "y_test"] (V "splits"),
  asg "model" (Cl (V cls) ctorArgs),
  .exprStmt (meth "model" "fit" [V "X_train", V "y_train"]),
  asg "expected" (V "y_test"),
  asg "predicted" (meth "model" "predict" [V "X_test"]),
  pr [Cl (V "classification_report") [V "expected", V "predicted"]]
]⟩

/-- Cell 29: LogisticRegression on iris. -/
def cell29 : Cell := classificationCell 29 "sklearn.linear_model" "LogisticRegression" [] "iris"

/-- Cell 31: LDA on digits. -/
def cell31 : Cell := classificationCell 31 "sklearn.lda" "LDA" [] "digits"

/-- Cell 33: GaussianNB on iris. -/
def cell33 : Cell := classificationCell 33 "sklearn.naive_bayes" "GaussianNB" [] "iris"

/-- Cell 35: KNeighborsClassifier(20) on digits. -/
def cell35 : Cell := classificationCell 35 "sklearn.neighbors" "KNeighborsClassifier" [I 20] "digits"

/-- Cell 37: DecisionTreeClassifier on iris. -/
def cell37 : Cell := classificationCell 37 "sklearn.tree" "DecisionTreeClassifier" [] "iris"

/-- Cell 39: SVC on digits, looping over three kernels, with degree=3
added for the poly kernel. -/
def cell39 : Cell := ⟨39, [
  .fromImport "sklearn.svm" [("SVC", "SVC")],
  asg "kernels" (.listLit [S "linear", S "poly", S "rbf"]),
  asg "splits" (Cl (dot "cv" "train_test_split")
    [dot "digits" "data", dot "digits" "target", Kw "test_size" (F 2 1)]),
  .assign ["X_train", "X_test", "y_train", "y_test"] (V "splits"),
  .forIn ["kernel"] (V "kernels") [
    .ifElse (.compare "!=" (V "kernel") (S "poly"))
      [asg "model" (Cl (V "SVC") [Kw "kernel" (V "kernel")])]
      [asg "model" (Cl (V "SVC") [Kw "kernel" (V "kernel"), Kw "degree" (I 3)])],
    .exprStmt (meth "model" "fit" [V "X_train", V "y_train"]),
    asg "expected" (V "y_test"),
    asg "predicted" (meth "model" "predict" [V "X_test"]),
    pr [Cl (V "classification_report") [V "expected", V "predicted"]]
  ]
]⟩

/-- Cell 41: RandomForestClassifier on digits. -/
def cell41 : Cell := classificationCell 41 "sklearn.ensemble" "RandomForestClassifier" [] "digits"

/-- Cell 44: the four synthetic clustering datasets, the colors array
(28 color characters stacked 20 times), and one scatter subplot per
dataset. -/
def cell44 : Cell := ⟨44, [
  .fromImport "sklearn.datasets" [("make_circles", "make_circles")],
  .fromImport "sklearn.datasets" [("make_moons", "make_moons")],
  .fromImport "sklearn.datasets" [("make_blobs", "make_blobs")],
  .fromImport "sklearn.preprocessing" [("StandardScaler", "StandardScaler")],
  asg "N" (I 1000),
  asg "colors" (Cl (dot "np" "array")
    [.listComp (V "x") "x" (S "bgrcmykbgrcmykbgrcmykbgrcmyk")]),
  asg "colors" (Cl (dot "np" "hstack") [.binop "*" (.listLit [V "colors"]) (I 20)]),
  asg "circles" (Cl (V "make_circles")
    [Kw "n_samples" (V "N"), Kw "factor" (F 5 1), Kw "noise" (F 5 2)]),
  asg "moons" (Cl (V "make_moons") [Kw "n_samples" (V "N"), Kw "noise" (F 8 2)]),
  asg "blobs" (Cl (V "make_blobs") [Kw "n_samples" (V "N"), Kw "random_state" (I 9)]),
  asg "noise" (.tupleLit [Cl (At (dot "np" "random") "rand") [V "N", I 2], .noneLit]),
  .assign ["fig", "axe"] (Cl (dot "plt" "subplots") [Kw "figsize" (.tupleLit [I 18, I 4])]),
  .forIn ["idx", "dataset"]
    (Cl (V "enumerate") [.tupleLit [V "circles", V "moons", V "blobs", V "noise"]]) [
    .assign ["X", "y"] (V "dataset"),
    asg "X" (Cl (At (Cl (V "StandardScaler") []) "fit_transform") [V "X"]),
    .exprStmt (Cl (dot "plt" "subplot") [I 1, I 4, .binop "+" (V "idx") (I 1)]),
    .exprStmt (Cl (dot "plt" "scatter") [.subscript (V "X") (.tupleLit [.colon, I 0]),
      .subscript (V "X") (.tupleLit [.colon, I 1]), Kw "marker" (S ".")]),
    .exprStmt (Cl (dot "plt" "xticks") [.tupleLit []]),
    .exprStmt (Cl (dot "plt" "yticks") [.tupleLit []]),
    .exprStmt (Cl (dot "plt" "ylabel") [S "$x_1$"]),
    .exprStmt (Cl (dot "plt" "xlabel") [S "$x_0$"])
  ],
  .exprStmt (Cl (dot "plt" "show") [])
]⟩

/-- Cell 46: the global warning suppression. -/
def cell46 : Cell := ⟨46, [
  .importMod "warnings" "warnings",
  .exprStmt (meth "warnings" "filterwarnings" [S "ignore"])
]⟩

/-- The two clustering cells 47 and 49 are textually identical except
for the imported estimator class and its constructor arguments: for each
of the four synthetic datasets of cell 44, scale it, fit a fresh model,
predict cluster labels, scatter the cluster centers, then select the
subplot of this dataset and scatter its points colored by label. -/
def clusterCell (id : Nat) (module cls : String) (ctorArgs : List Expr) : Cell := ⟨id, [
  .fromImport module [(cls, cls)],
  .assign ["fig", "axe"] (Cl (dot "plt" "subplots") [Kw "figsize" (.tupleLit [I 18, I 4])]),
  .forIn ["idx", "dataset"]
    (Cl (V "enumerate") [.tupleLit [V "circles", V "moons", V "blobs", V "noise"]]) [
    .assign ["X", "y"] (V "dataset"),
    asg "X" (Cl (At (Cl (V "StandardScaler") []) "fit_transform") [V "X"]),
    asg "model" (Cl (V cls) ctorArgs),
    .exprStmt (meth "model" "fit" [V "X"]),
    asg "predictions" (meth "model" "predict" [V "X"]),
    asg "centers" (dot "model" "cluster_centers_"),
    asg "center_colors" (.subscript (V "colors") (.sliceTo (Cl (V "len") [V "centers"]))),
    .exprStmt (Cl (dot "plt" "scatter") [.subscript (V "centers") (.tupleLit [.colon, I 0]),
      .subscript (V "centers") (.tupleLit [.colon, I 1]), Kw "s" (I 100),
      Kw "c" (V "center_colors")]),
    .exprStmt (Cl (dot "plt" "subplot") [I 1, I 4, .binop "+" (V "idx") (I 1)]),
    .exprStmt (Cl (dot "plt" "scatter") [.subscript (V "X") (.tupleLit [.colon, I 0]),
      .subscript (V "X") (.tupleLit [.colon, I 1]),
      Kw "color" (Cl (At (.subscript (V "colors") (V "predictions")) "tolist") []),
      Kw "s" (I 10)]),
    .exprStmt (Cl (dot "plt" "xticks") [.tupleLit []]),
    .exprStmt (Cl (dot "plt" "yticks") [.tupleLit []]),
    .exprStmt (Cl (dot "plt" "ylabel") [S "$x_1$"]),
    .exprStmt (Cl (dot "plt" "xlabel") [S "$x_0$"])
  ],
  .exprStmt (Cl (dot "plt" "show") [])
]⟩

/-- Cell 47: MiniBatchKMeans with n_clusters=5. -/
def cell47 : Cell := clusterCell 47 "sklearn.cluster" "MiniBatchKMeans" [Kw "n_clusters" (I 5)]

/-- Cell 49: AffinityPropagation with damping=.92, preference=-200. -/
def cell49 : Cell :=
  clusterCell 49 "sklearn.cluster" "AffinityPropagation"
    [Kw "damping" (F 92 2), Kw "preference" (I (-200))]

/-- All code cells of the notebook, in source order. -/
def notebookCells : List Cell :=
  [cell2, cell4, cell5, cell6, cell7, cell10, cell12, cell14, cell16, cell18,
   cell20, cell22, cell24, cell26, cell29, cell31, cell33, cell35, cell37,
   cell39, cell41, cell44, cell46, cell47, cell49]

/-! Recognizers and static analyses over the embedded notebook. -/

/-- Every expression (with subterms) occurring anywhere in a cell. -/
def cellExprs (c : Cell) : List Expr := stmtsExprs c.code

/-- Does an expression (with its subterms) occur in the statement,
including statements nested in loops and branches. -/
def stmtHas (p : Expr → Bool) (s : Stmt) : Bool :=
  (Expr.subtermsList (s.allStmts.flatMap Stmt.topExprs)).any p

/-- Is the expression exactly the variable `v`. -/
def isNameOf (v : String) : Expr → Bool
  | .name s => s == v
  | _ => false

/-- Is the expression a call `f(...)` of the plain name `f`. -/
def isPlainCall (f : String) : Expr → Bool
  | .call (.name g) _ => g == f
  | _ => false

/-- Is the expression a method call `obj.m(...)` on the variable `obj`. -/
def isMethodCallOn (obj m : String) : Expr → Bool
  | .call (.attr (.name b) mm) _ => b == obj && mm == m
  | _ => false

/-- Is the expression a method call `_.m(...)` with any receiver that is
a plain variable. -/
def isVarMethodCall (m : String) : Expr → Bool
  | .call (.attr (.name _) mm) _ => mm == m
  | _ => false

/-- Is the expression any call. -/
def isCall : Expr → Bool
  | .call _ _ => true
  | _ => false

/-- The cell mentions (reads) the variable `v` in some expression. -/
def cellMentions (v : String) (c : Cell) : Bool := (cellExprs c).any (isNameOf v)

/-- Pairs (variable, callee) for every assignment `v = f(...)` of a call
of a plain name anywhere in the statements. -/
def ctorPairsOf (ss : List Stmt) : List (String × String) :=
  (Stmt.allStmtsList ss).filterMap fun s =>
    match s with
    | .assign [v] (.call (.name f) _) => some (v, f)
    | _ => none

/-- The cell calls `v.m(...)` somewhere. -/
def cellCallsMethodOn (c : Cell) (v m : String) : Bool :=
  (cellExprs c).any (isMethodCallOn v m)

/-- The estimator objects of a cell: variables assigned from a call of a
plain class name on which the cell invokes both fit and predict.  This
excludes dataset containers (never fit) and the StandardScaler uses
(called inline, never assigned, never predicted). -/
def cellEstimatorVars (c : Cell) : List (String × String) :=
  (ctorPairsOf c.code).filter fun p =>
    cellCallsMethodOn c p.1 "fit" && cellCallsMethodOn c p.1 "predict"

/-- Keep the first occurrence of each string. -/
def insertOnce (s : String) (acc : List String) : List String :=
  if acc.contains s then acc else acc ++ [s]

/-- First-occurrence deduplication. -/
def dedupStr (l : List String) : List String :=
  l.foldl (fun acc s => insertOnce s acc) []

/-- The distinct estimator classes a cell instantiates, fits and
predicts with. -/
def estimatorClassesOf (c : Cell) : List String :=
  dedupStr ((cellEstimatorVars c).map (·.2))

/-- A demonstration cell: a cell that instantiates an estimator and runs
both its fit and its predict. -/
def isDemoCell (c : Cell) : Bool := !(cellEstimatorVars c).isEmpty

/-- Names bound by the import statements of a list of statements. -/
def importedNames (ss : List Stmt) : List String :=
  (Stmt.allStmtsList ss).flatMap fun s =>
    match s with
    | .importMod _ a => [a]
    | .fromImport _ prs => prs.map (·.2)
    | _ => []

/-- All import-bound names of the whole notebook. -/
def notebookImportedNames : List String :=
  notebookCells.flatMap fun c => importedNames c.code

/-! Sequential trace of a run.  A cell body is a linear list of
statements; the only loops are for-loops over a literal three-element
list (cell 39) or over enumerate of a literal four-tuple (cells 44, 47,
49), so a run unrolls each loop body once per element, tagged with the
iteration index. -/

/-- Number of iterations of a for-loop iterable, given the lengths of
list literals assigned earlier in the same cell. -/
def iterLenOf (env : List (String × Nat)) : Expr → Nat
  | .call (.name "enumerate") [.tupleLit es] => es.length
  | .listLit es => es.length
  | .name v => (env.lookup v).getD 0
  | _ => 0

/-- Unroll the loops of a cell body into a flat statement trace tagged
with the iteration index (0 outside loops). -/
def unrollStmts : List (String × Nat) → List Stmt → List (Nat × Stmt)
  | _, [] => []
  | env, .forIn _vs it body :: rest =>
      ((List.range (iterLenOf env it)).flatMap fun i => body.map fun s => (i, s))
        ++ unrollStmts env rest
  | env, .assign [v] (.listLit es) :: rest =>
      (0, .assign [v] (.listLit es)) :: unrollStmts ((v, es.length) :: env) rest
  | env, s :: rest => (0, s) :: unrollStmts env rest

/-- The trace of one cell. -/
def cellTrace (c : Cell) : List (Nat × Stmt) := unrollStmts [] c.code

/-- The trace of a top-to-bottom run of the whole notebook. -/
def notebookTrace : List (Nat × Stmt) := notebookCells.flatMap cellTrace

/-! Fit-before-predict dataflow check.  The state is the set of
variables whose current value is a fitted model; predict on a variable
outside the set is a violation, and any reassignment of a variable
removes it from the set. -/

/-- Receivers of `_.predict(...)` calls in the direct expressions of a
statement. -/
def predictReceivers (s : Stmt) : List String :=
  (Expr.subtermsList s.topExprs).filterMap fun e =>
    match e with
    | .call (.attr (.name v) "predict") _ => some v
    | _ => none

/-- Receivers of `_.fit(...)` calls in the direct expressions of a
statement. -/
def fitReceivers (s : Stmt) : List String :=
  (Expr.subtermsList s.topExprs).filterMap fun e =>
    match e with
    | .call (.attr (.name v) "fit") _ => some v
    | _ => none

/-- Variables a statement assigns directly. -/
def stmtTargets : Stmt → List String
  | .assign vs _ => vs
  | .forIn vs _ _ => vs
  | _ => []

/-- One linear (loop-free, branch-free) statement of the fitted-set
dataflow: fail if a predict receiver is unfitted, then add fit
receivers, then drop reassigned variables. -/
def stepFitPlain (fitted : List String) (s : Stmt) : Option (List String) :=
  if (predictReceivers s).all fitted.contains then
    some ((fitted ++ fitReceivers s).filter fun v => !(stmtTargets s).contains v)
  else none

/-- The fitted-set dataflow over a plain branch body. -/
def stepFitSeq (fitted : List String) : List Stmt → Option (List String)
  | [] => some fitted
  | s :: rest =>
      match stepFitPlain fitted s with
      | some f => stepFitSeq f rest
      | none => none

/-- One trace statement of the fitted-set dataflow; an if/else requires
both branches to be safe and keeps only variables fitted on both. -/
def stepFit (fitted : List String) : Stmt → Option (List String)
  | .ifElse c t e =>
      match stepFitPlain fitted (.exprStmt c) with
      | none => none
      | some f0 =>
          match stepFitSeq f0 t, stepFitSeq f0 e with
          | some ft, some fe => some (ft.filter fe.contains)
          | _, _ => none
  | s => stepFitPlain fitted s

/-- The fitted-set dataflow over a trace. -/
def runFit : List String → List (Nat × Stmt) → Option (List String)
  | fitted, [] => some fitted
  | fitted, (_, s) :: rest =>
      match stepFit fitted s with
      | some f => runFit f rest
      | none => none

/-- No predict in a top-to-bottom run of the notebook is reached before
the fit of the model it is called on. -/
def fitBeforePredictOK : Bool := (runFit [] notebookTrace).isSome

/-! Metric-from-predict dataflow check.  The state is the set of
variables whose current value is the output of a predict call; every
metric call must take such a variable as its second argument. -/

/-- The metric functions the notebook imports from sklearn.metrics. -/
def metricNames : List String := ["mse", "r2_score", "classification_report"]

/-- Is the expression a call of one of the metric functions. -/
def isMetricCall : Expr → Bool
  | .call (.name f) _ => metricNames.contains f
  | _ => false

/-- Argument lists of the metric calls in the direct expressions of a
statement. -/
def metricCallArgs (s : Stmt) : List (List Expr) :=
  (Expr.subtermsList s.topExprs).filterMap fun e =>
    match e with
    | .call (.name f) args => if metricNames.contains f then some args else none
    | _ => none

/-- A metric argument list is computed from a predict output: its second
argument is a variable currently holding one. -/
def metricArgsOK (predVars : List String) : List Expr → Bool
  | [_, .name w] => predVars.contains w
  | _ => false

/-- One linear statement of the predict-output dataflow. -/
def stepPredPlain (predVars : List String) (s : Stmt) : Option (List String) :=
  if (metricCallArgs s).all (metricArgsOK predVars) then
    some (match s with
      | .assign [v] (.call (.attr (.name _) "predict") _) =>
          insertOnce v (predVars.filter (· != v))
      | .assign vs _ => predVars.filter fun v => !vs.contains v
      | _ => predVars)
  else none

/-- The predict-output dataflow over a plain branch body. -/
def stepPredSeq (predVars : List String) : List Stmt → Option (List String)
  | [] => some predVars
  | s :: rest =>
      match stepPredPlain predVars s with
      | some f => stepPredSeq f rest
      | none => none

/-- One trace statement of the predict-output dataflow. -/
def stepPred (predVars : List String) : Stmt → Option (List String)
  | .ifElse c t e =>
      match stepPredPlain predVars (.exprStmt c) with
      | none => none
      | some f0 =>
          match stepPredSeq f0 t, stepPredSeq f0 e with
          | some ft, some fe => some (ft.filter fe.contains)
          | _, _ => none
  | s => stepPredPlain predVars s

/-- The predict-output dataflow over a trace. -/
def runPred : List String → List (Nat × Stmt) → Option (List String)
  | predVars, [] => some predVars
  | predVars, (_, s) :: rest =>
      match stepPred predVars s with
      | some f => runPred f rest
      | none => none

/-- Every metric call in a top-to-bottom run of the notebook takes as
its second argument a variable holding the output of a predict call. -/
def metricFromPredictOK : Bool := (runPred [] notebookTrace).isSome

/-- Is the expression a call of cv.train_test_split. -/
def isSplitCall : Expr → Bool
  | .call (.attr (.name "cv") "train_test_split") _ => true
  | _ => false

/-- In the trace of the cell, the first fit precedes the first predict,
a split (when present) precedes the first fit, and the first metric call
(when present) follows the first predict. -/
def cellSequenceOK (c : Cell) : Bool :=
  let tr := cellTrace c
  let si := tr.findIdx? fun q => stmtHas isSplitCall q.2
  let fi := tr.findIdx? fun q => stmtHas (isVarMethodCall "fit") q.2
  let pidx := tr.findIdx? fun q => stmtHas (isVarMethodCall "predict") q.2
  let mi := tr.findIdx? fun q => stmtHas isMetricCall q.2
  match fi, pidx with
  | some f, some p =>
      decide (f < p)
        && (match si with | some s => decide (s < f) | none => true)
        && (match mi with | some m => decide (p < m) | none => true)
  | _, _ => false

/-! First-use dataflow: how a cell first touches a variable, reading it
or assigning it, in statement order. -/

/-- Does the expression mention the variable `v`. -/
def exprMentions (v : String) (e : Expr) : Bool := e.subterms.any (isNameOf v)

mutual

/-- How a statement first touches variable `v`: `some true` if it reads
it first, `some false` if it binds it first, `none` if it does not
touch it. -/
def firstUseStmt (v : String) : Stmt → Option Bool
  | .assign vs rhs =>
      if exprMentions v rhs then some true
      else if vs.contains v then some false else none
  | .attrAssign obj _ rhs =>
      if exprMentions v obj || exprMentions v rhs then some true else none
  | .subscriptAssign obj k rhs =>
      if exprMentions v obj || exprMentions v k || exprMentions v rhs then some true else none
  | .exprStmt e => if exprMentions v e then some true else none
  | .forIn vs it body =>
      if exprMentions v it then some true
      else if vs.contains v then some false
      else firstUseList v body
  | .ifElse c t e =>
      if exprMentions v c then some true
      else
        match firstUseList v t with
        | some b => some b
        | none => firstUseList v e
  | .importMod _ a => if a == v then some false else none
  | .fromImport _ prs => if (prs.map (·.2)).contains v then some false else none
  | _ => none

/-- How a statement list first touches variable `v`. -/
def firstUseList (v : String) : List Stmt → Option Bool
  | [] => none
  | s :: rest =>
      match firstUseStmt v s with
      | some b => some b
      | none => firstUseList v rest

end

/-- The cell reads variable `v` before (re)binding it, so its value
flows in from an earlier cell. -/
def cellReadsFromEarlier (v : String) (c : Cell) : Bool :=
  firstUseList v c.code == some true

/-- All variables assigned (including loop variables) in the
demonstration cells. -/
def demoCreatedVars : List String :=
  dedupStr (notebookCells.flatMap fun c =>
    if isDemoCell c then (Stmt.allStmtsList c.code).flatMap stmtTargets else [])

/-- No demonstration cell reads a variable created by demonstration
cells without first rebinding it itself: the demonstration cells are
mutually independent. -/
def demoCellsIndependent : Bool :=
  notebookCells.all fun c =>
    !(isDemoCell c) || demoCreatedVars.all fun v => !(cellReadsFromEarlier v c)

/-! Effect model of the external library calls.  The libraries are
outside this repository; each call the notebook makes is mapped to the
effect its library documentation ascribes to it. -/

/-- Effects a call can have on the world outside the interpreter. -/
inductive Effect where
  | pureCompute
  | stdoutPrint
  | plotRender
  | datasetLoad
  | datasetGen
  | warnFilter
  | fileWrite
  | fileDelete
  | networkIO
  | threadSpawn
  | processSpawn
  | callbackRegister
deriving DecidableEq, BEq, Repr

/-- The sklearn estimator classes the notebook imports. -/
def estimatorClassNames : List String :=
  ["LinearRegression", "Perceptron", "KNeighborsRegressor", "DecisionTreeRegressor",
   "RandomForestRegressor", "AdaBoostRegressor", "SVR", "Ridge", "Lasso",
   "LogisticRegression", "LDA", "GaussianNB", "KNeighborsClassifier",
   "DecisionTreeClassifier", "SVC", "RandomForestClassifier",
   "MiniBatchKMeans", "AffinityPropagation"]

/-- The bundled dataset loaders imported from sklearn.datasets. -/
def datasetLoaders : List String :=
  ["load_boston", "load_iris", "load_diabetes", "load_digits", "load_linnerud"]

/-- The synthetic dataset generators imported from sklearn.datasets. -/
def datasetMakers : List String := ["make_circles", "make_moons", "make_blobs"]

/-- Plain-name library and builtin calls that only compute values. -/
def pureCallNames : List String :=
  metricNames ++ ["enumerate", "len", "StandardScaler"] ++ estimatorClassNames

/-- Modelled from the spec: the notebook treats sklearn, numpy, pandas
and matplotlib as black-box collaborators, so each call the notebook
makes is assigned the effect its library documentation ascribes to it:
printing writes stdout, the plt and pandas plotting calls render
inline figures, the sklearn loaders read data bundled with the library,
the generators draw random data, warnings.filterwarnings changes the
process warning filter, and everything else (constructors, fit,
predict, transforms, metrics, array building) computes values in
memory.  A call not recognized by this table gets no effect and fails
the classification check. -/
def callEffect : Expr → Option Effect
  | .call (.name f) _ =>
      if f == "print" then some .stdoutPrint
      else if datasetLoaders.contains f then some .datasetLoad
      else if datasetMakers.contains f then some .datasetGen
      else if f == "scatter_matrix" || f == "radviz" then some .plotRender
      else if pureCallNames.contains f then some .pureCompute
      else none
  | .call (.attr (.attr (.name "np") "random") "rand") _ => some .datasetGen
  | .call (.attr (.name "plt") _) _ => some .plotRender
  | .call (.attr (.name "np") m) _ =>
      if m == "array" || m == "hstack" then some .pureCompute else none
  | .call (.attr (.name "pd") "DataFrame") _ => some .pureCompute
  | .call (.attr (.name "cv") "train_test_split") _ => some .pureCompute
  | .call (.attr (.name "warnings") "filterwarnings") _ => some .warnFilter
  | .call (.attr (.name _) m) _ =>
      if m == "fit" || m == "predict" || m == "tolist" then some .pureCompute else none
  | .call (.attr (.call (.name "StandardScaler") _) "fit_transform") _ => some .pureCompute
  | .call (.attr (.subscript _ _) "tolist") _ => some .pureCompute
  | _ => none

/-- All calls made anywhere in the notebook. -/
def notebookCalls : List Expr :=
  (notebookCells.flatMap cellExprs).filter isCall

/-- Every call of the notebook is classified by the effect table. -/
def allCallsClassified : Bool := notebookCalls.all fun e => (callEffect e).isSome

/-- The effects of all classified notebook calls. -/
def notebookEffects : List Effect := notebookCalls.filterMap callEffect

/-- Effects that print text, render plots, or compute in memory —
nothing persisted, nothing on the network, nothing concurrent. -/
def harmlessEffects : List Effect :=
  [.pureCompute, .stdoutPrint, .plotRender, .datasetLoad, .datasetGen, .warnFilter]

/-- Does the statement define a function or class. -/
def isDefStmt : Stmt → Bool
  | .funcDef _ _ _ => true
  | .classDef _ _ => true
  | .asyncFuncDef _ _ _ => true
  | _ => false

/-- Does the statement open a resource or raise. -/
def isWithOrRaise : Stmt → Bool
  | .withStmt _ _ => true
  | .raiseStmt _ => true
  | _ => false

/-- Is the statement a try/except handler. -/
def isTryStmt : Stmt → Bool
  | .tryExcept _ _ => true
  | _ => false

/-- All statements of the notebook, nested ones included. -/
def notebookStmts : List Stmt :=
  notebookCells.flatMap fun c => Stmt.allStmtsList c.code

/-- Is the expression a lambda or an await. -/
def isLambdaOrAwait : Expr → Bool
  | .lambda _ _ => true
  | .await _ => true
  | _ => false

/-! The warnings cell. -/

/-- Is the expression the call warnings.filterwarnings(...). -/
def isFilterWarningsCall : Expr → Bool
  | .call (.attr (.name "warnings") "filterwarnings") _ => true
  | _ => false

/-- Is the expression any call on the warnings module. -/
def isWarningsModuleCall : Expr → Bool
  | .call (.attr (.name "warnings") _) _ => true
  | _ => false

/-- Ids of the cells containing a warnings.filterwarnings call. -/
def filterWarningsCellIds : List Nat :=
  (notebookCells.filter fun c => (cellExprs c).any isFilterWarningsCall).map (·.id)

/-- Argument lists of all warnings.filterwarnings calls of the notebook. -/
def filterWarningsArgLists : List (List Expr) :=
  (notebookCells.flatMap cellExprs).filterMap fun e =>
    match e with
    | .call (.attr (.name "warnings") "filterwarnings") args => some args
    | _ => none

/-! The colors array of cell 44 and fancy indexing (claim about the
clustering cells). -/

/-- The 28-character color-cycle string literal of cell 44. -/
def colorsBase : List Char := "bgrcmykbgrcmykbgrcmykbgrcmyk".toList

/-- The value of the colors array after np.hstack([colors] * 20):
20 copies of the 28 characters. -/
def colorsVal : List Char := (List.replicate 20 colorsBase).flatten

/-- The string literal inside np.array([x for x in ...]) assigned to
colors in cell 44, read off the embedded AST. -/
def colorsSourceLit : Option String :=
  (Stmt.allStmtsList cell44.code).filterMap (fun s =>
    match s with
    | .assign ["colors"] (.call (.attr (.name "np") "array")
        [.listComp (.name "x") "x" (.strLit lit)]) => some lit
    | _ => none) |>.head?

/-- The stacking factor inside np.hstack([colors] * k) in cell 44, read
off the embedded AST. -/
def colorsStackFactor : Option Int :=
  (Stmt.allStmtsList cell44.code).filterMap (fun s =>
    match s with
    | .assign ["colors"] (.call (.attr (.name "np") "hstack")
        [.binop "*" (.listLit [.name "colors"]) (.intLit k)]) => some k
    | _ => none) |>.head?

/-- Modelled from the spec: numpy integer-array indexing arr[idxs]
succeeds exactly when every index is within bounds, returning the
selected elements; an index at or past the length raises. -/
def npIndex (arr : List Char) (idxs : List Nat) : Option (List Char) :=
  if idxs.all (fun i => decide (i < arr.length)) then
    some (idxs.filterMap fun i => arr.get? i)
  else none

/-- The integer value of the keyword argument `kwname` of the first
call of the plain class name `cls` in the cell, when present. -/
def ctorKwargInt (cls kwname : String) (c : Cell) : Option Int :=
  ((cellExprs c).filterMap fun e =>
    match e with
    | .call (.name f) args =>
        if f == cls then
          (args.filterMap fun a =>
            match a with
            | .kw k (.intLit n) => if k == kwname then some n else none
            | _ => none).head?
        else none
    | _ => none).head?

/-- Does the first call of the plain class name `cls` in the cell carry
a keyword argument named `kwname` at all. -/
def ctorHasKwarg (cls kwname : String) (c : Cell) : Bool :=
  (cellExprs c).any fun e =>
    match e with
    | .call (.name f) args =>
        f == cls && args.any fun a =>
          match a with
          | .kw k _ => k == kwname
          | _ => false
    | _ => false

/-- Number of elements of the literal tuple the four-dataset loop of a
clustering cell enumerates. -/
def clusterLoopCount (c : Cell) : Option Nat :=
  ((Stmt.allStmtsList c.code).filterMap fun s =>
    match s with
    | .forIn _ (.call (.name "enumerate") [.tupleLit es]) _ => some es.length
    | _ => none).head?

/-! Current-axes state machine for the clustering plots.  plt.subplot
selects a subplot as the current axes; every plt.scatter draws on
whatever the current axes is at that moment.  `none` is the initial
axes created by plt.subplots. -/

/-- Evaluate a subplot index argument in iteration `i` of the loop
(idx + 1 with idx the iteration index). -/
def evalIdxArg (i : Nat) : Expr → Option Nat
  | .intLit k => if k < 0 then none else some k.toNat
  | .name v => if v == "idx" then some i else none
  | .binop "+" a b =>
      match evalIdxArg i a, evalIdxArg i b with
      | some x, some y => some (x + y)
      | _, _ => none
  | _ => none

/-- The variable whose subscript is the first positional argument of a
scatter call: "centers" for the cluster-center scatter, "X" for the
data-point scatter. -/
def scatterSubject (args : List Expr) : Option String :=
  match args with
  | .subscript (.name b) _ :: _ => some b
  | _ => none

/-- Walk a trace keeping the current axes; record, for each plt.scatter,
what it draws and the axes it draws on. -/
def axesRecords : Option Nat → List (Nat × Stmt) → List (String × Option Nat)
  | _, [] => []
  | _, (i, .exprStmt (.call (.attr (.name "plt") "subplot") [_, _, e])) :: rest =>
      axesRecords (evalIdxArg i e) rest
  | cur, (_, .exprStmt (.call (.attr (.name "plt") "scatter") args)) :: rest =>
      (match scatterSubject args with
       | some b => [(b, cur)]
       | none => []) ++ axesRecords cur rest
  | cur, _ :: rest => axesRecords cur rest

/-- The axes on which each of the four cluster-center scatters of a
clustering cell draws, in loop order. -/
def centersAxes (c : Cell) : List (Option Nat) :=
  (axesRecords none (cellTrace c)).filterMap fun p =>
    if p.1 == "centers" then some p.2 else none

/-- The axes on which each of the four data-point scatters of a
clustering cell draws, in loop order. -/
def pointsAxes (c : Cell) : List (Option Nat) :=
  (axesRecords none (cellTrace c)).filterMap fun p =>
    if p.1 == "X" then some p.2 else none

/-! Remaining per-claim recognizers. -/

/-- The dataset variables of the notebook: the five bundled datasets
loaded in cell 2 and the four synthetic ones built in cell 44. -/
def datasetVars : List String :=
  ["boston", "iris", "diabetes", "digits", "linnerud",
   "circles", "moons", "blobs", "noise"]

/-- The cell mentions at least one dataset variable. -/
def cellPicksDataset (c : Cell) : Bool := datasetVars.any fun v => cellMentions v c

/-- The cell computes one of the imported metrics somewhere. -/
def cellComputesMetric (c : Cell) : Bool := (cellExprs c).any isMetricCall

/-- The cell prints something. -/
def cellPrintsSomething (c : Cell) : Bool := (cellExprs c).any (isPlainCall "print")

/-- The cell scatter-plots the cluster predictions (a plt.scatter whose
arguments mention the predictions variable). -/
def cellPlotsPredictions (c : Cell) : Bool :=
  (cellExprs c).any fun e =>
    match e with
    | .call (.attr (.name "plt") "scatter") args =>
        (Expr.subtermsList args).any (isNameOf "predictions")
    | _ => false

/-- Python builtins the notebook calls by plain name. -/
def pyBuiltins : List String := ["print", "enumerate", "len"]

/-- Heads of all plain-name calls of the notebook. -/
def plainCallHeads : List String :=
  (notebookCells.flatMap cellExprs).filterMap fun e =>
    match e with
    | .call (.name f) _ => some f
    | _ => none

/-- Every plain-name call of the notebook resolves to an imported
library name or a Python builtin. -/
def plainCallsResolve : Bool :=
  plainCallHeads.all fun f => notebookImportedNames.contains f || pyBuiltins.contains f

/-- The fit statement of the regression pattern: model.fit on the full
diabetes data and target. -/
def isFitOnDiabetes : Stmt → Bool
  | .exprStmt (.call (.attr (.name "model") "fit")
      [.attr (.name "diabetes") "data", .attr (.name "diabetes") "target"]) => true
  | _ => false

/-- The predict assignment of the regression pattern: predicted =
model.predict on the same full diabetes data. -/
def isPredictOnDiabetes : Stmt → Bool
  | .assign ["predicted"] (.call (.attr (.name "model") "predict")
      [.attr (.name "diabetes") "data"]) => true
  | _ => false

/-- The expected assignment of the regression pattern: expected =
diabetes.target, the training target vector itself. -/
def isExpectedDiabetesTarget : Stmt → Bool
  | .assign ["expected"] (.attr (.name "diabetes") "target") => true
  | _ => false

/-- A metric call on (expected, predicted) appears in the cell. -/
def cellMetricOnExpectedPredicted (f : String) (c : Cell) : Bool :=
  (cellExprs c).any fun e =>
    match e with
    | .call (.name g) [.name "expected", .name "predicted"] => g == f
    | _ => false

/-- A regression demonstration cell follows the train-equals-test
pattern: fit on the full diabetes data, predict on the same data, take
diabetes.target as expected, and compute mse and r2_score on
(expected, predicted). -/
def regressionCellOK (c : Cell) : Bool :=
  (Stmt.allStmtsList c.code).any isFitOnDiabetes
    && (Stmt.allStmtsList c.code).any isPredictOnDiabetes
    && (Stmt.allStmtsList c.code).any isExpectedDiabetesTarget
    && cellMetricOnExpectedPredicted "mse" c
    && cellMetricOnExpectedPredicted "r2_score" c

/-- The test_size float of the train_test_split call of the cell. -/
def cellSplitTestSize (c : Cell) : Option PyFloat :=
  ((cellExprs c).filterMap fun e =>
    match e with
    | .call (.attr (.name "cv") "train_test_split") args =>
        (args.filterMap fun a =>
          match a with
          | .kw "test_size" (.floatLit f) => some f
          | _ => none).head?
    | _ => none).head?

/-- The fit statement of the classification pattern: model.fit on the
training part of the split. -/
def isFitOnTrain : Stmt → Bool
  | .exprStmt (.call (.attr (.name "model") "fit") [.name "X_train", .name "y_train"]) => true
  | _ => false

/-- The predict assignment of the classification pattern: predicted =
model.predict on the held-out features. -/
def isPredictOnTest : Stmt → Bool
  | .assign ["predicted"] (.call (.attr (.name "model") "predict") [.name "X_test"]) => true
  | _ => false

/-- The expected assignment of the classification pattern: expected =
y_test, the held-out targets. -/
def isExpectedYTest : Stmt → Bool
  | .assign ["expected"] (.name "y_test") => true
  | _ => false

/-- A classification demonstration cell follows the held-out pattern:
split with test_size=0.2, fit on the train part, predict on the test
part, take y_test as expected, and compute the classification report on
(expected, predicted). -/
def classificationCellOK (c : Cell) : Bool :=
  cellSplitTestSize c == some ⟨2, 1⟩
    && (Stmt.allStmtsList c.code).any isFitOnTrain
    && (Stmt.allStmtsList c.code).any isPredictOnTest
    && (Stmt.allStmtsList c.code).any isExpectedYTest
    && cellMetricOnExpectedPredicted "classification_report" c

/-- The regression demonstration cells: the demonstration cells that
compute mse. -/
def regressionCells : List Cell :=
  notebookCells.filter fun c =>
    isDemoCell c && (cellExprs c).any fun e =>
      match e with
      | .call (.name f) _ => f == "mse"
      | _ => false

/-- The classification demonstration cells: the demonstration cells
that compute a classification report. -/
def classificationCells : List Cell :=
  notebookCells.filter fun c =>
    isDemoCell c && (cellExprs c).any fun e =>
      match e with
      | .call (.name f) _ => f == "classification_report"
      | _ => false

/-- Is the statement an async function definition. -/
def isAsyncDef : Stmt → Bool
  | .asyncFuncDef _ _ _ => true
  | _ => false

/-! The claims. -/

/-- Claim C1: the notebook suppresses warnings globally in exactly one
code cell — cell 46, whose single warnings.filterwarnings call has the
lone argument "ignore" — and performs no other error handling: no cell
contains a try/except, a with, or a raise, and no other cell calls into
the warnings module, so that cell is the only point where warning
behaviour changes and every library error propagates to the top level
of a sequential run. -/
theorem claim_C1 :
    filterWarningsCellIds = [46]
      ∧ filterWarningsArgLists = [[Expr.strLit "ignore"]]
      ∧ notebookStmts.any isTryStmt = false
      ∧ notebookStmts.any isWithOrRaise = false
      ∧ (notebookCells.filter fun c =>
          (cellExprs c).any isWarningsModuleCall).map (·.id) = [46] :=
  ⟨rfl, rfl, rfl, rfl, rfl⟩

/-- Claim C2 counterexample: cell 47 is a demonstration cell — it
instantiates exactly one estimator, MiniBatchKMeans, and calls its fit
and predict — yet it computes none of the notebook's metrics (mse,
r2_score, classification_report) and prints nothing, so it neither
prints nor plots a metric; its only outputs are scatter plots of the
points and centers. -/
theorem claim_C2_counterexample :
    isDemoCell cell47 = true
      ∧ cellEstimatorVars cell47 = [("model", "MiniBatchKMeans")]
      ∧ cellComputesMetric cell47 = false
      ∧ cellPrintsSomething cell47 = false :=
  ⟨rfl, rfl, rfl, rfl⟩

/-- Claim C2 (amended): every demonstration cell — a cell that
instantiates an estimator and calls its fit and predict — picks a
dataset, instantiates exactly one estimator class, and either prints or
plots a metric or, in the two clustering cells, plots the cluster
predictions instead of a metric. -/
theorem claim_C2 :
    (notebookCells.all fun c => !(isDemoCell c)
        || (cellPicksDataset c && (estimatorClassesOf c).length == 1
            && (cellComputesMetric c || cellPlotsPredictions c))) = true := rfl

/-- Claim C3 counterexample: cell 49 is an estimator cell — it
instantiates AffinityPropagation as its single model and calls its fit
and predict — but its invocation sequence ends without a score: no
mean squared error, R2 or classification report is computed from its
predict output, so the metric clause of the claim fails for this model
object. -/
theorem claim_C3_counterexample :
    isDemoCell cell49 = true
      ∧ cellEstimatorVars cell49 = [("model", "AffinityPropagation")]
      ∧ cellComputesMetric cell49 = false :=
  ⟨rfl, rfl, rfl⟩

/-- Claim C3 (amended): in a sequential top-to-bottom run of the whole
notebook, no model variable's predict is ever reached before its fit
(reassignment resets the fitted status), every metric call takes as its
second argument a variable holding the output of a predict call, and in
every demonstration cell the first split (when present) precedes the
first fit, which precedes the first predict, which precedes the first
metric call (when one is present — the two clustering cells compute no
metric). -/
theorem claim_C3 :
    fitBeforePredictOK = true
      ∧ metricFromPredictOK = true
      ∧ (notebookCells.all fun c => !(isDemoCell c) || cellSequenceOK c) = true :=
  ⟨rfl, rfl, rfl⟩

/-- Claim C4: the nine regression demonstrations (cells 10 to 26) each
fit their model on the full diabetes data, predict on exactly the same
data, take diabetes.target — the training target vector itself — as
expected, and compute mse and r2_score on (expected, predicted), so all
regression metrics are training-set scores; the seven classification
demonstrations (cells 29 to 41) each split with test_size=0.2 (the
fraction one fifth), fit on the training part only, predict on the
held-out features, and compute the classification report against the
held-out targets only. -/
theorem claim_C4 :
    regressionCells.map (·.id) = [10, 12, 14, 16, 18, 20, 22, 24, 26]
      ∧ regressionCells.all regressionCellOK = true
      ∧ classificationCells.map (·.id) = [29, 31, 33, 35, 37, 39, 41]
      ∧ classificationCells.all classificationCellOK = true
      ∧ (PyFloat.mk 2 1).toRat = 1 / 5 := by
  refine ⟨rfl, rfl, rfl, rfl, ?_⟩
  norm_num [PyFloat.toRat]

/-- Claim C5 counterexample: the iris dataset container is created via
the library call load_iris in cell 2 (the first code cell) and is read
by cell 29 (a later cell) before any rebinding, so an entity created
via a library call is not used once within the cell that creates it and
then discarded. -/
theorem claim_C5_counterexample :
    (ctorPairsOf cell2.code).contains ("iris", "load_iris") = true
      ∧ cellReadsFromEarlier "iris" cell29 = true
      ∧ notebookCells.findIdx? (fun c => c.id == 2) = some 0
      ∧ notebookCells.findIdx? (fun c => c.id == 29) = some 14 :=
  ⟨rfl, rfl, rfl, rfl⟩

/-- Claim C5 (amended): the demonstration cells are mutually
independent — no demonstration cell reads any variable created by the
demonstration cells without first rebinding it itself, so no model,
prediction or split of one demonstration flows into another — but the
dataset containers and the colors array are created once in the setup
cells 2 and 44 and read by several later cells, as the clustering cells
reading circles and colors show. -/
theorem claim_C5 :
    demoCellsIndependent = true
      ∧ cellReadsFromEarlier "circles" cell47 = true
      ∧ cellReadsFromEarlier "colors" cell49 = true :=
  ⟨rfl, rfl, rfl⟩

/-- Claim C6: every call of every cell is classified by the effect
table of the external libraries, every classified effect only prints
text, renders an inline plot, or computes in memory (loading bundled
data and filtering warnings included), no call writes, deletes, or
opens a file for writing, none talks to the network, and no statement
is a with or a raise — so a complete top-to-bottom run leaves the
file-system state of the repository unchanged and its only observable
outputs are printed text and inline plots. -/
theorem claim_C6 :
    allCallsClassified = true
      ∧ notebookEffects.all harmlessEffects.contains = true
      ∧ notebookEffects.contains Effect.fileWrite = false
      ∧ notebookEffects.contains Effect.fileDelete = false
      ∧ notebookEffects.contains Effect.networkIO = false
      ∧ notebookStmts.any isWithOrRaise = false :=
  ⟨rfl, rfl, rfl, rfl, rfl, rfl⟩

/-- Claim C7: the notebook defines no functions or classes of its own —
no def, class, async def, or lambda occurs in any cell — and every
plain-name call resolves to a name bound by the notebook's own import
statements or to a Python builtin (print, enumerate, len); every method
call is classified by the library effect table, so model fits,
predictions, metric computations and visualizations all resolve to the
external libraries, never to logic implemented in this repository. -/
theorem claim_C7 :
    notebookStmts.any isDefStmt = false
      ∧ (notebookCells.flatMap cellExprs).any isLambdaOrAwait = false
      ∧ plainCallsResolve = true
      ∧ allCallsClassified = true :=
  ⟨rfl, rfl, rfl, rfl⟩

/-- Claim C8: the colors array of cell 44 is the 28-character string
stacked 20 times, 560 elements; the K-Means cell constructs
MiniBatchKMeans with n_clusters=5 inside the loop over exactly four
datasets, so every predicted label below 5 indexes the colors array in
bounds; the AffinityPropagation construction of cell 49 passes no
n_clusters at all, so the labels it produces are not bounded by the
code, and a label of 560 would already index out of bounds. -/
theorem claim_C8 :
    colorsSourceLit = some "bgrcmykbgrcmykbgrcmykbgrcmyk"
      ∧ colorsBase.length = 28
      ∧ colorsStackFactor = some 20
      ∧ colorsVal.length = 560
      ∧ ctorKwargInt "MiniBatchKMeans" "n_clusters" cell47 = some 5
      ∧ clusterLoopCount cell47 = some 4
      ∧ (∀ preds : List Nat, (∀ l ∈ preds, l < 5) →
          (npIndex colorsVal preds).isSome = true)
      ∧ ctorHasKwarg "AffinityPropagation" "n_clusters" cell49 = false
      ∧ npIndex colorsVal [560] = none := by
  refine ⟨rfl, rfl, rfl, rfl, rfl, rfl, ?_, rfl, rfl⟩
  intro preds h
  have hlen : colorsVal.length = 560 := rfl
  have hall : (preds.all fun i => decide (i < colorsVal.length)) = true := by
    rw [List.all_eq_true]
    intro i hi
    rw [decide_eq_true_eq, hlen]
    exact lt_trans (h i hi) (by norm_num)
  simp [npIndex, hall]

/-- Claim C8 witness: the in-bounds statement of claim C8 applied at
the concrete label vector [0, 1, 2, 3, 4], the five labels
MiniBatchKMeans with n_clusters=5 can produce. -/
theorem claim_C8_witness : (npIndex colorsVal [0, 1, 2, 3, 4]).isSome = true :=
  claim_C8.2.2.2.2.2.2.1 [0, 1, 2, 3, 4] (by decide)

/-- Claim C9: in both clustering cells the four cluster-center scatters
draw on the initial axes and then on subplots 1, 2 and 3, while the
four data-point scatters draw on subplots 1 to 4 — the centers scatter
of each loop iteration executes before that iteration's plt.subplot
call, so each dataset's centers land on the axes selected in the
previous iteration (the figure's initial axes for the first dataset)
and never on the subplot showing that same dataset's points. -/
theorem claim_C9 :
    centersAxes cell47 = [none, some 1, some 2, some 3]
      ∧ pointsAxes cell47 = [some 1, some 2, some 3, some 4]
      ∧ centersAxes cell49 = [none, some 1, some 2, some 3]
      ∧ pointsAxes cell49 = [some 1, some 2, some 3, some 4]
      ∧ (((centersAxes cell47).zip (pointsAxes cell47)).all fun p => p.1 != p.2) = true
      ∧ (((centersAxes cell49).zip (pointsAxes cell49)).all fun p => p.1 != p.2) = true :=
  ⟨rfl, rfl, rfl, rfl, rfl, rfl⟩

/-- Claim C10: execution is single-threaded, synchronous and
sequential: every call of every cell is classified by the effect table
and no effect spawns a thread or process or registers a callback, no
expression is a lambda or an await, and no statement is an async
definition — the embedding itself is a linear statement list per cell,
so there are no suspension points, no shared mutable state across
concurrent components, and no cancellation mechanism. -/
theorem claim_C10 :
    allCallsClassified = true
      ∧ notebookEffects.contains Effect.threadSpawn = false
      ∧ notebookEffects.contains Effect.processSpawn = false
      ∧ notebookEffects.contains Effect.callbackRegister = false
      ∧ (notebookCells.flatMap cellExprs).any isLambdaOrAwait = false
      ∧ notebookStmts.any isAsyncDef = false :=
  ⟨rfl, rfl, rfl, rfl, rfl, rfl⟩

end Tour
